import Mathlib

/-!
Verification of the reactive async-state coordination layer of the
`preact-app-render-01` repository: the `BaseApiState` state record, the
`AsyncActionManager.executeAsyncAction` executor, the `createApiAction` /
`createApiActionFactory` helpers, and the `POST /api/base64/encode`
backend handler.

The embedding models JavaScript runtime values with an inductive `Value`
(objects are kept opaque, identified by a tag string: none of the verified
code inspects object contents beyond property presence, which is modelled
separately where needed), signal-based state with a plain record that the
state-record operations update, and the executor as a function producing
the list of state-record operations it performs together with its returned
result.
-/

namespace PreactAppRender

/-- A JavaScript runtime value as far as the verified code can observe it:
`null`, `undefined`, booleans, numbers, strings, and opaque object
references (distinguished by a tag).  Numbers are modelled as integers:
the verified code only ever tests values for truthiness. -/
inductive Value where
  | vNull : Value
  | vUndefined : Value
  | vBool : Bool → Value
  | vNum : Int → Value
  | vStr : String → Value
  | vObj : String → Value
deriving DecidableEq, Repr

/-- JavaScript truthiness of a value (`Boolean(v)`): `null`, `undefined`,
`false`, `0`, and the empty string are falsy; objects are always truthy. -/
def Value.truthy : Value → Bool
  | .vNull => false
  | .vUndefined => false
  | .vBool b => b
  | .vNum n => n != 0
  | .vStr s => s != ""
  | .vObj _ => true

/-- The result of the JavaScript `typeof` operator on a value
(`typeof null` is `"object"`). -/
def Value.typeof : Value → String
  | .vNull => "object"
  | .vUndefined => "undefined"
  | .vBool _ => "boolean"
  | .vNum _ => "number"
  | .vStr _ => "string"
  | .vObj _ => "object"

/-- The derived status enumeration of a state record
(`'idle' | 'loading' | 'success' | 'error'`). -/
inductive Status where
  | idle : Status
  | loading : Status
  | success : Status
  | error : Status
deriving DecidableEq, Repr

/-- The observable state of a `BaseApiState` record: the current values of
its three signals `data`, `loading` and `error`
(src/unnamed/part_007, class `BaseApiState`). -/
structure BaseApiState where
  data : Value
  loading : Bool
  error : String
deriving DecidableEq, Repr

namespace BaseApiState

/-- `get hasData()`: `this.data.value !== null && this.data.value !== undefined`. -/
def hasData (s : BaseApiState) : Bool :=
  s.data != Value.vNull && s.data != Value.vUndefined

/-- `get hasError()`: `!!this.error.value` — string truthiness, i.e. non-empty. -/
def hasError (s : BaseApiState) : Bool :=
  s.error != ""

/-- `get status()`: `loading` if the `loading` signal is true, else `error`
if the `error` string is truthy, else `success` if `hasData`, else `idle`. -/
def status (s : BaseApiState) : Status :=
  if s.loading then Status.loading
  else if s.error != "" then Status.error
  else if s.hasData then Status.success
  else Status.idle

/-- `clear()`: re-assigns `data` to its current value (observably a no-op
on `data`), sets `loading` to `false` and `error` to `""`. -/
def clear (s : BaseApiState) : BaseApiState :=
  { s with data := s.data, loading := false, error := "" }

/-- `setLoading(loading)`. -/
def setLoading (s : BaseApiState) (l : Bool) : BaseApiState :=
  { s with loading := l }

/-- `setData(data)`. -/
def setData (s : BaseApiState) (d : Value) : BaseApiState :=
  { s with data := d }

/-- `setError(error)`. -/
def setError (s : BaseApiState) (e : String) : BaseApiState :=
  { s with error := e }

end BaseApiState

/-- A JavaScript value caught by the executor's `catch` block, as far as
`error instanceof Error ? error.message : 'Network error'` can observe it:
either an `Error` instance with its `message` string, or anything else. -/
inductive Thrown where
  | errObj : String → Thrown
  | other : Thrown
deriving DecidableEq, Repr

/-- `error instanceof Error ? error.message : 'Network error'`
(src/src/lib/api/async-manager.ts, catch block of `executeAsyncAction`). -/
def Thrown.toMsg : Thrown → String
  | .errObj m => m
  | .other => "Network error"

/-- A backend response (`ApiResponse<T>` in src/src/lib/api/types.ts):
`data` is the value of the `data` property (`vUndefined` when the property
is absent), `error` the optional `error` string. -/
structure ApiResponse where
  data : Value
  error : Option String
deriving DecidableEq, Repr

/-- `response.error || 'Unknown error'`: the `error` property when it is a
truthy (non-empty) string, else the literal `"Unknown error"`. -/
def ApiResponse.errorOrUnknown (r : ApiResponse) : String :=
  match r.error with
  | some s => if s != "" then s else "Unknown error"
  | none => "Unknown error"

/-- The executor's return value `AsyncActionResult<T>`:
`{success: true, data}` or `{success: false, error}`. -/
inductive ActionResult where
  | success : Value → ActionResult
  | failure : String → ActionResult
deriving DecidableEq, Repr

/-- One mutation of a state record performed by the executor. -/
inductive StateOp where
  | clear : StateOp
  | setLoading : Bool → StateOp
  | setData : Value → StateOp
  | setError : String → StateOp
deriving DecidableEq, Repr

/-- Apply one state-record operation. -/
def applyOp (s : BaseApiState) : StateOp → BaseApiState
  | .clear => s.clear
  | .setLoading l => s.setLoading l
  | .setData d => s.setData d
  | .setError e => s.setError e

/-- Apply a sequence of state-record operations in order. -/
def applyOps (s : BaseApiState) (ops : List StateOp) : BaseApiState :=
  ops.foldl applyOp s

/-- A facade method as the executor invokes it: given `none` (invoked with
no arguments) or `some p` (invoked with payload `p`), it either throws or
resolves to a backend response. -/
def Method : Type := Option Value → Except Thrown ApiResponse

/-- An optional data transform `transformData?: (data) => T`; applying it
may itself throw. -/
def Transform : Type := Value → Except Thrown Value

/-- The argument the facade method is invoked with:
`payload ? await method(payload) : await method()` — the payload is passed
exactly when it is provided AND truthy; otherwise the method is invoked
with no arguments. -/
def callArg (payload : Option Value) : Option Value :=
  match payload with
  | none => none
  | some p => if p.truthy then some p else none

/-- `transformData ? transformData(response.data) : (response.data as T)`. -/
def applyTransform (t : Option Transform) (d : Value) : Except Thrown Value :=
  match t with
  | some f => f d
  | none => Except.ok d

/-- `AsyncActionManager.executeAsyncAction` (src/src/lib/api/async-manager.ts),
as the sequence of state-record operations it performs together with the
`AsyncActionResult` it returns:
`clear()`, `setLoading(true)`, then the method call; on a truthy
`response.data` the (possibly transformed) payload is stored via `setData`
followed by `setError('')`; otherwise `setError(response.error || 'Unknown
error')`; a thrown value is caught and reduced to a message via
`setError`; the `finally` block runs `setLoading(false)` on every path. -/
def executeOps (m : Method) (t : Option Transform) (payload : Option Value) :
    List StateOp × ActionResult :=
  let pre := [StateOp.clear, StateOp.setLoading true]
  match m (callArg payload) with
  | Except.error thrown =>
      (pre ++ [StateOp.setError thrown.toMsg, StateOp.setLoading false],
       ActionResult.failure thrown.toMsg)
  | Except.ok r =>
      if r.data.truthy then
        match applyTransform t r.data with
        | Except.ok v =>
            (pre ++ [StateOp.setData v, StateOp.setError "", StateOp.setLoading false],
             ActionResult.success v)
        | Except.error thrown =>
            (pre ++ [StateOp.setError thrown.toMsg, StateOp.setLoading false],
             ActionResult.failure thrown.toMsg)
      else
        let e := r.errorOrUnknown
        (pre ++ [StateOp.setError e, StateOp.setLoading false],
         ActionResult.failure e)

/-- `executeAsyncAction` acting on a concrete initial state record:
the final observable state together with the returned result. -/
def executeAsyncAction (m : Method) (t : Option Transform)
    (payload : Option Value) (s0 : BaseApiState) : BaseApiState × ActionResult :=
  (applyOps s0 (executeOps m t payload).1, (executeOps m t payload).2)

/-- A Backend Service Facade (`IApiService`): dynamic method-name lookup
`this.apiService[apiMethod]` yields a facade method for each method name
(the TypeScript key constraint guarantees the lookup succeeds). -/
def Facade : Type := String → Method

/-- The module-level `defaultAsyncManager` variable of
src/src/lib/api/helpers.ts: `none` before `setDefaultApiService` has been
called, `some facade` afterwards (an `AsyncActionManager` only stores the
facade it was constructed with). -/
def DefaultManager : Type := Option Facade

/-- `setDefaultApiService(apiService)`: replaces the module-level default
manager by a fresh `AsyncActionManager` bound to `apiService`. -/
def setDefaultApiService (_g : DefaultManager) (f : Facade) : DefaultManager :=
  some f

/-- The third argument of `createApiAction`, `transformOrPayload`: either a
transform function, a non-function value used as the payload, or absent. -/
inductive TransformOrPayload where
  | tf : Transform → TransformOrPayload
  | pl : Value → TransformOrPayload
  | undef : TransformOrPayload

/-- The closure returned by `createApiAction`: it captures the method name
and the transform/payload disambiguated at creation time
(`typeof transformOrPayload === 'function'`), and resolves the default
manager only when invoked. -/
structure Action where
  methodName : String
  transformData : Option Transform
  payload : Option Value

/-- `createApiAction(apiMethod, stateManager, transformOrPayload?, maybeTransform?)`
(src/src/lib/api/helpers.ts): if the third argument is a function it is the
transform and the payload is `undefined`; otherwise it is the payload
(absent meaning `undefined`) and the fourth argument is the transform. -/
def createApiAction (apiMethod : String) (transformOrPayload : TransformOrPayload)
    (maybeTransform : Option Transform) : Action :=
  { methodName := apiMethod
    transformData :=
      match transformOrPayload with
      | .tf f => some f
      | .pl _ => maybeTransform
      | .undef => maybeTransform
    payload :=
      match transformOrPayload with
      | .tf _ => none
      | .pl v => some v
      | .undef => none }

/-- Invoking an action-creator's callable against the current module state:
the closure body is
`return getDefaultAsyncManager().executeAsyncAction(apiMethod, stateManager,
transformData, payload)`, so `getDefaultAsyncManager()` throws (before any
state-record operation runs) when no default service is installed;
otherwise the executor runs against the installed facade. -/
def runAction (g : DefaultManager) (a : Action) (s0 : BaseApiState) :
    BaseApiState × Except Unit ActionResult :=
  match g with
  | none => (s0, Except.error ())
  | some f =>
      (applyOps s0 (executeOps (f a.methodName) a.transformData a.payload).1,
       Except.ok (executeOps (f a.methodName) a.transformData a.payload).2)

/-- The action-creator returned by `createApiActionFactory(apiService)`
(src/src/lib/api/helpers.ts): its parameters are
`(apiMethod, stateManager, transformData?)` — it has no payload parameter —
and its callable runs `manager.executeAsyncAction(apiMethod, stateManager,
transformData)` against the factory's private manager, hence with
`payload === undefined`. -/
def createApiActionFactory (f : Facade) (apiMethod : String)
    (transformData : Option Transform) : List StateOp × ActionResult :=
  executeOps (f apiMethod) transformData none

/-- UTF-8 encoding of one Unicode code point, as a list of byte values. -/
def utf8EncodeChar (c : Nat) : List Nat :=
  if c < 0x80 then [c]
  else if c < 0x800 then
    [0xC0 + c / 0x40, 0x80 + c % 0x40]
  else if c < 0x10000 then
    [0xE0 + c / 0x1000, 0x80 + (c / 0x40) % 0x40, 0x80 + c % 0x40]
  else
    [0xF0 + c / 0x40000, 0x80 + (c / 0x1000) % 0x40, 0x80 + (c / 0x40) % 0x40,
     0x80 + c % 0x40]

/-- The UTF-8 byte representation of a string (`Buffer.from(text, 'utf8')`). -/
def utf8Bytes (s : String) : List Nat :=
  (s.toList.map (fun ch => utf8EncodeChar ch.toNat)).flatten

/-- The RFC 4648 base64 alphabet. -/
def base64Alphabet : List Char :=
  "ABCDEFGHIJKLMNOPQRSTUVWXYZabcdefghijklmnopqrstuvwxyz0123456789+/".toList

/-- The base64 digit for a 6-bit value. -/
def base64Digit (n : Nat) : Char :=
  base64Alphabet.getD n 'A'

/-- Standard (RFC 4648) base64 encoding with `=` padding of a byte list
(`buffer.toString('base64')`). -/
def base64Encode : List Nat → String
  | [] => ""
  | [b1] =>
      String.mk [base64Digit (b1 / 4), base64Digit (b1 % 4 * 16), '=', '=']
  | [b1, b2] =>
      String.mk [base64Digit (b1 / 4), base64Digit (b1 % 4 * 16 + b2 / 16),
                 base64Digit (b2 % 16 * 4), '=']
  | b1 :: b2 :: b3 :: rest =>
      String.mk [base64Digit (b1 / 4), base64Digit (b1 % 4 * 16 + b2 / 16),
                 base64Digit (b2 % 16 * 4 + b3 / 64), base64Digit (b3 % 64)]
        ++ base64Encode rest

/-- The request body of `POST /api/base64/encode` as the handler destructures
it: the value of its `text` property (`vUndefined` when absent). -/
structure EncodeRequestBody where
  text : Value
deriving DecidableEq, Repr

/-- The observable HTTP response of the encode endpoint: status code and
the optional `base64` / `error` fields of the JSON body. -/
structure EncodeResponse where
  statusCode : Nat
  base64 : Option String
  error : Option String
deriving DecidableEq, Repr

/-- The `POST /api/base64/encode` handler (src/api/index.js): replies `400`
when `!text || typeof text !== 'string'`, else `200` with
`Buffer.from(text, 'utf8').toString('base64')`.  (The guard makes the
non-string fallback branch of the match unreachable.) -/
def base64EncodeHandler (body : EncodeRequestBody) : EncodeResponse :=
  if !body.text.truthy || body.text.typeof != "string" then
    { statusCode := 400, base64 := none,
      error := some "Invalid input: expected JSON with \"text\" field containing a string" }
  else
    match body.text with
    | .vStr s =>
        { statusCode := 200, base64 := some (base64Encode (utf8Bytes s)), error := none }
    | _ =>
        { statusCode := 400, base64 := none,
          error := some "Invalid input: expected JSON with \"text\" field containing a string" }

/-! ## Theorems about the state record -/

/-- C5: for every state of a state record, if `loading` is true then
`status` is `'loading'` regardless of the contents of `error` and `data`;
otherwise `status` is `'error'` if `error` is non-empty, else `'success'`
if `data` is neither null nor undefined, else `'idle'` — the fixed
priority order loading > error > success > idle. -/
theorem status_priority_law (s : BaseApiState) :
    (s.loading = true → s.status = Status.loading) ∧
    (s.loading = false →
      (s.error ≠ "" → s.status = Status.error) ∧
      (s.error = "" →
        (s.hasData = true → s.status = Status.success) ∧
        (s.hasData = false → s.status = Status.idle))) := by
  refine ⟨fun h => ?_, fun h => ⟨fun he => ?_, fun he => ⟨fun hd => ?_, fun hd => ?_⟩⟩⟩
  · simp [BaseApiState.status, h]
  · simp [BaseApiState.status, h, bne_iff_ne, he]
  · simp [BaseApiState.status, h, he, hd]
  · simp [BaseApiState.status, h, he, hd]

/-- Witness for C5 at a concrete state: with `loading = true`, `status` is
`'loading'` even though `error` is non-empty and `data` is present. -/
theorem status_priority_law_witness :
    (⟨Value.vObj "x", true, "boom"⟩ : BaseApiState).status = Status.loading :=
  (status_priority_law ⟨Value.vObj "x", true, "boom"⟩).1 rfl

/-- C7: `clear()` sets `loading` to `false` and `error` to `""`, never
mutates `data`, and is idempotent: clearing twice yields the same
observable state as clearing once. -/
theorem clear_data_preserving_idempotent (s : BaseApiState) :
    s.clear.data = s.data ∧ s.clear.loading = false ∧ s.clear.error = "" ∧
    s.clear.clear = s.clear :=
  ⟨rfl, rfl, rfl, rfl⟩

/-! ## Theorems about the executor -/

/-- C4 counterexample: the payload `0` is provided (not `undefined`), yet
the facade method is invoked with no arguments, because
`payload ? method(payload) : method()` tests truthiness, not presence.
The probe method answers `"no-arg"` to a zero-argument invocation and
`"with-arg"` to a one-argument invocation; the executor run with payload
`0` yields `"no-arg"`. -/
theorem executeOps_falsy_payload_drops_argument :
    (executeOps
        (fun a => match a with
          | none => Except.ok ⟨Value.vStr "no-arg", none⟩
          | some _ => Except.ok ⟨Value.vStr "with-arg", none⟩)
        none (some (Value.vNum 0))).2 = ActionResult.success (Value.vStr "no-arg") ∧
    ActionResult.success (Value.vStr "no-arg") ≠
      ActionResult.success (Value.vStr "with-arg") :=
  ⟨rfl, by decide⟩

/-- C4 (amended): the facade method's single invocation receives the
payload exactly when the payload is provided AND truthy; a missing payload
— and equally a provided but falsy payload — yields a zero-argument
invocation. -/
theorem executeOps_invocation_argument (m : Method) (t : Option Transform)
    (p : Option Value) :
    executeOps m t p = executeOps (fun _ => m (callArg p)) t p ∧
    callArg none = none ∧
    (∀ v : Value, callArg (some v) = if v.truthy then some v else none) :=
  ⟨rfl, rfl, fun _ => rfl⟩

/-- On every run whose result is `{success: false, error: e}`, the executor
performed exactly `clear`, `setLoading(true)`, `setError(e)`,
`setLoading(false)`, with the same error string `e` as in the result. -/
theorem executeOps_failure_ops (m : Method) (t : Option Transform)
    (p : Option Value) (e : String)
    (hf : (executeOps m t p).2 = ActionResult.failure e) :
    (executeOps m t p).1 = [StateOp.clear, StateOp.setLoading true,
      StateOp.setError e, StateOp.setLoading false] := by
  revert hf
  unfold executeOps
  cases m (callArg p) with
  | error thrown =>
      intro hf
      simp only at hf
      injection hf with h
      simp [h]
  | ok r =>
      by_cases hd : r.data.truthy = true
      · simp only [hd, if_true]
        cases applyTransform t r.data with
        | ok v => intro hf; exact absurd hf (by simp)
        | error thrown =>
            intro hf
            simp only at hf
            injection hf with h
            simp [h]
      · simp only [hd]
        intro hf
        injection hf with h
        simp [h]

/-- On every run whose result is `{success: true, data: v}`, the executor
performed exactly `clear`, `setLoading(true)`, `setData(v)`, `setError('')`,
`setLoading(false)`. -/
theorem executeOps_success_ops (m : Method) (t : Option Transform)
    (p : Option Value) (v : Value)
    (hs : (executeOps m t p).2 = ActionResult.success v) :
    (executeOps m t p).1 = [StateOp.clear, StateOp.setLoading true,
      StateOp.setData v, StateOp.setError "", StateOp.setLoading false] := by
  revert hs
  unfold executeOps
  cases m (callArg p) with
  | error thrown => intro hs; exact absurd hs (by simp)
  | ok r =>
      by_cases hd : r.data.truthy = true
      · simp only [hd, if_true]
        cases applyTransform t r.data with
        | ok w =>
            intro hs
            simp only at hs
            injection hs with h
            simp [h]
        | error thrown => intro hs; exact absurd hs (by simp)
      · simp only [hd]
        intro hs
        exact absurd hs (by simp)

/-- C1 counterexample: the facade method resolves with truthy `data`
(`vObj "d"`) and the supplied transform does not throw — it returns
`null` — yet after completion the record's `status` is `'idle'`, not
`'success'`, because `hasData` is false on a `null` payload.  The claim's
unconditional `status === 'success'` is therefore false. -/
theorem executeAsyncAction_success_status_cex :
    ((fun _ => Except.ok ⟨Value.vObj "d", none⟩ : Method) none
        = Except.ok ⟨Value.vObj "d", none⟩) ∧
    (Value.vObj "d").truthy = true ∧
    applyTransform (some fun _ => Except.ok Value.vNull) (Value.vObj "d")
        = Except.ok Value.vNull ∧
    (executeAsyncAction (fun _ => Except.ok ⟨Value.vObj "d", none⟩)
        (some fun _ => Except.ok Value.vNull) none ⟨Value.vNull, false, ""⟩).2
        = ActionResult.success Value.vNull ∧
    (executeAsyncAction (fun _ => Except.ok ⟨Value.vObj "d", none⟩)
        (some fun _ => Except.ok Value.vNull) none ⟨Value.vNull, false, ""⟩).1.status
        = Status.idle ∧
    Status.idle ≠ Status.success :=
  ⟨rfl, rfl, rfl, rfl, rfl, by decide⟩

/-- C1 (amended): for every execution in which the facade method resolves
with truthy `data` and the (possibly absent) transform does not throw,
after completion the record has `loading = false`, `error = ""`, `data`
equal to the processed payload `v`, the result is `{success: true, data: v}`,
and `status = 'success'` exactly when `v` is neither null nor undefined
(always the case when no transform is given, since the raw payload is
truthy). -/
theorem executeAsyncAction_success_path (m : Method) (t : Option Transform)
    (p : Option Value) (s0 : BaseApiState) (r : ApiResponse) (v : Value)
    (hm : m (callArg p) = Except.ok r) (hd : r.data.truthy = true)
    (ht : applyTransform t r.data = Except.ok v) :
    (executeAsyncAction m t p s0).1 = ⟨v, false, ""⟩ ∧
    (executeAsyncAction m t p s0).2 = ActionResult.success v ∧
    ((executeAsyncAction m t p s0).1.status = Status.success ↔
      (v ≠ Value.vNull ∧ v ≠ Value.vUndefined)) := by
  have hres : (executeOps m t p).2 = ActionResult.success v := by
    unfold executeOps
    rw [hm]
    simp [hd, ht]
  have hops := executeOps_success_ops m t p v hres
  have hstate : (executeAsyncAction m t p s0).1 = ⟨v, false, ""⟩ := by
    unfold executeAsyncAction
    rw [hops]
    rfl
  refine ⟨hstate, ?_, ?_⟩
  · unfold executeAsyncAction
    exact hres
  · rw [hstate]
    unfold BaseApiState.status BaseApiState.hasData
    by_cases h1 : v = Value.vNull <;> by_cases h2 : v = Value.vUndefined <;>
      simp [h1, h2]

/-- Witness for C1 (amended) at a concrete run: the facade resolves
`{data: vObj "hello"}`, there is no transform, and the record ends in
`status = 'success'` with the raw payload stored. -/
theorem executeAsyncAction_success_path_witness :
    (executeAsyncAction (fun _ => Except.ok ⟨Value.vObj "hello", none⟩)
        none none ⟨Value.vNull, false, ""⟩).1 = ⟨Value.vObj "hello", false, ""⟩ ∧
    (executeAsyncAction (fun _ => Except.ok ⟨Value.vObj "hello", none⟩)
        none none ⟨Value.vNull, false, ""⟩).1.status = Status.success := by
  have h := executeAsyncAction_success_path
    (fun _ => Except.ok ⟨Value.vObj "hello", none⟩) none none
    ⟨Value.vNull, false, ""⟩ ⟨Value.vObj "hello", none⟩ (Value.vObj "hello")
    rfl rfl rfl
  exact ⟨h.1, h.2.2.mpr (by decide)⟩

/-- C2 counterexample: the facade method throws an `Error` whose `message`
is the empty string.  The run fails, yet after completion the record's
`error` is `""` (empty, because `error instanceof Error` is true and the
message is copied verbatim) and its `status` is `'idle'`, not `'error'`;
the claim's "non-empty error string" and "status === 'error'" are false. -/
theorem executeAsyncAction_failure_empty_error_cex :
    (executeAsyncAction (fun _ => Except.error (Thrown.errObj "")) none none
        ⟨Value.vNull, false, ""⟩).2 = ActionResult.failure "" ∧
    (executeAsyncAction (fun _ => Except.error (Thrown.errObj "")) none none
        ⟨Value.vNull, false, ""⟩).1.error = "" ∧
    (executeAsyncAction (fun _ => Except.error (Thrown.errObj "")) none none
        ⟨Value.vNull, false, ""⟩).1.status = Status.idle ∧
    Status.idle ≠ Status.error :=
  ⟨rfl, rfl, rfl, by decide⟩

/-- C2 (amended): for every failed execution — API-reported or thrown —
after completion the record has `loading = false`, `data` unchanged, and
`error` equal to the same error string `e` returned in
`{success: false, error: e}`; whenever `e` is non-empty (every case except
a thrown `Error` whose `message` is empty, since the API path falls back
to `"Unknown error"` and the non-`Error` throw path to `"Network error"`),
the record's `status` is `'error'`. -/
theorem executeAsyncAction_failure_path (m : Method) (t : Option Transform)
    (p : Option Value) (s0 : BaseApiState) (e : String)
    (hf : (executeOps m t p).2 = ActionResult.failure e) :
    (executeAsyncAction m t p s0).1.loading = false ∧
    (executeAsyncAction m t p s0).1.error = e ∧
    (executeAsyncAction m t p s0).1.data = s0.data ∧
    (executeAsyncAction m t p s0).2 = ActionResult.failure e ∧
    (e ≠ "" → (executeAsyncAction m t p s0).1.status = Status.error) := by
  have hops := executeOps_failure_ops m t p e hf
  have hstate : (executeAsyncAction m t p s0).1 = ⟨s0.data, false, e⟩ := by
    unfold executeAsyncAction
    rw [hops]
    rfl
  refine ⟨by rw [hstate], by rw [hstate], by rw [hstate], hf, fun he => ?_⟩
  rw [hstate]
  simp [BaseApiState.status, bne_iff_ne, he]

/-- Witness for C2 (amended) at a concrete run: the backend reports
`{error: "API failed"}` with no data; the record ends with
`error = "API failed"` and `status = 'error'`. -/
theorem executeAsyncAction_failure_path_witness :
    (executeAsyncAction (fun _ => Except.ok ⟨Value.vUndefined, some "API failed"⟩)
        none none ⟨Value.vNull, false, ""⟩).1.error = "API failed" ∧
    (executeAsyncAction (fun _ => Except.ok ⟨Value.vUndefined, some "API failed"⟩)
        none none ⟨Value.vNull, false, ""⟩).1.status = Status.error := by
  have h := executeAsyncAction_failure_path
    (fun _ => Except.ok ⟨Value.vUndefined, some "API failed"⟩) none none
    ⟨Value.vNull, false, ""⟩ "API failed" rfl
  exact ⟨h.2.1, h.2.2.2.2 (by decide)⟩

/-- C3 counterexample: the backend response `{data: 0}` is populated with
the `data` field, yet the executor takes the API-error path — the result
is `{success: false, error: "Unknown error"}`, never a success — because
`if (response.data)` tests truthiness and `0` is falsy. -/
theorem executeOps_populated_falsy_data_cex :
    ((fun _ => Except.ok ⟨Value.vNum 0, none⟩ : Method) none
        = Except.ok ⟨Value.vNum 0, none⟩) ∧
    (executeOps (fun _ => Except.ok ⟨Value.vNum 0, none⟩) none none).2
        = ActionResult.failure "Unknown error" ∧
    (∀ v, (executeOps (fun _ => Except.ok ⟨Value.vNum 0, none⟩) none none).2
        ≠ ActionResult.success v) :=
  ⟨rfl, rfl, fun _ h => ActionResult.noConfusion h⟩

/-- C3 (amended): the executor takes the success path exactly when the
response's `data` field is truthy (present and not null, undefined, false,
`0` or the empty string): a falsy `data` yields the API-error path with
error `response.error || 'Unknown error'`, a truthy `data` with a
non-throwing transform yields success, and every success implies truthy
`data`; the fallback string `"Unknown error"` is used exactly when
`response.error` is absent or empty. -/
theorem executeOps_response_dichotomy (m : Method) (t : Option Transform)
    (p : Option Value) (r : ApiResponse)
    (hm : m (callArg p) = Except.ok r) :
    (r.data.truthy = false →
      (executeOps m t p).2 = ActionResult.failure r.errorOrUnknown) ∧
    (r.data.truthy = true → ∀ v, applyTransform t r.data = Except.ok v →
      (executeOps m t p).2 = ActionResult.success v) ∧
    (∀ v, (executeOps m t p).2 = ActionResult.success v → r.data.truthy = true) ∧
    (∀ s, r.error = some s → s ≠ "" → r.errorOrUnknown = s) ∧
    (r.error = none → r.errorOrUnknown = "Unknown error") ∧
    (r.error = some "" → r.errorOrUnknown = "Unknown error") := by
  refine ⟨fun hd => ?_, fun hd v hv => ?_, fun v hv => ?_, fun s hs hne => ?_,
    fun hs => ?_, fun hs => ?_⟩
  · unfold executeOps
    rw [hm]
    simp [hd]
  · unfold executeOps
    rw [hm]
    simp [hd, hv]
  · by_contra hd
    have hd' : r.data.truthy = false := by
      cases h : r.data.truthy
      · rfl
      · exact absurd h hd
    rw [show (executeOps m t p).2 = ActionResult.failure r.errorOrUnknown by
          unfold executeOps; rw [hm]; simp [hd']] at hv
    exact ActionResult.noConfusion hv
  · simp [ApiResponse.errorOrUnknown, hs, hne]
  · simp [ApiResponse.errorOrUnknown, hs]
  · simp [ApiResponse.errorOrUnknown, hs]

/-- Witness for C3 (amended) at a concrete response `{error: "API failed"}`
without data: the executor returns `{success: false, error: "API failed"}`. -/
theorem executeOps_response_dichotomy_witness :
    (executeOps (fun _ => Except.ok ⟨Value.vUndefined, some "API failed"⟩)
        none none).2 = ActionResult.failure "API failed" := by
  have h := (executeOps_response_dichotomy
    (fun _ => Except.ok ⟨Value.vUndefined, some "API failed"⟩) none none
    ⟨Value.vUndefined, some "API failed"⟩ rfl).1 rfl
  simpa using h

/-! ## Theorems about the helpers layer -/

/-- C9: invoking an action-creator before the process-wide default Executor
has been installed raises the misuse error and leaves the target state
record completely unchanged; once a default facade is installed, every
invocation returns an ordinary result — nothing is thrown to the caller. -/
theorem runAction_misuse_and_absorption (a : Action) (s0 : BaseApiState) :
    runAction none a s0 = (s0, Except.error ()) ∧
    (∀ f : Facade, ∃ r : ActionResult,
      (runAction (some f) a s0).2 = Except.ok r) :=
  ⟨rfl, fun f =>
    ⟨(executeOps (f a.methodName) a.transformData a.payload).2, rfl⟩⟩

/-- C10: the callable produced by `createApiAction` resolves the default
Executor at invocation time: after any call to `setDefaultApiService`
installing a facade `f`, invoking a previously created action uses `f` —
the prior contents of the module-level default (including `none`, i.e.
creation before any installation) are irrelevant — and the invocation
never raises the misuse error. -/
theorem createApiAction_late_binding (g g' : DefaultManager) (f : Facade)
    (apiMethod : String) (transformOrPayload : TransformOrPayload)
    (maybeTransform : Option Transform) (s0 : BaseApiState) :
    setDefaultApiService g f = some f ∧
    runAction (setDefaultApiService g f)
        (createApiAction apiMethod transformOrPayload maybeTransform) s0 =
      runAction (setDefaultApiService g' f)
        (createApiAction apiMethod transformOrPayload maybeTransform) s0 ∧
    (runAction (setDefaultApiService g f)
        (createApiAction apiMethod transformOrPayload maybeTransform) s0).2 =
      Except.ok (executeOps (f apiMethod)
        (createApiAction apiMethod transformOrPayload maybeTransform).transformData
        (createApiAction apiMethod transformOrPayload maybeTransform).payload).2 :=
  ⟨rfl, rfl, rfl⟩

/-- C8 counterexample: with a payload, the two construction paths are not
equivalent.  The probe facade answers `"no-arg"` to a zero-argument
invocation and `"with-arg"` to a one-argument invocation; the default-path
action created with payload `vObj "payload"` yields `"with-arg"`, while
the factory-path action-creator — whose signature has no payload
parameter — always invokes the method with no arguments and yields
`"no-arg"`. -/
theorem factory_vs_default_payload_cex :
    (runAction
        (some (fun _ a => match a with
          | none => Except.ok ⟨Value.vStr "no-arg", none⟩
          | some _ => Except.ok ⟨Value.vStr "with-arg", none⟩))
        (createApiAction "m" (TransformOrPayload.pl (Value.vObj "payload")) none)
        ⟨Value.vNull, false, ""⟩).2
      = Except.ok (ActionResult.success (Value.vStr "with-arg")) ∧
    (createApiActionFactory
        (fun _ a => match a with
          | none => Except.ok ⟨Value.vStr "no-arg", none⟩
          | some _ => Except.ok ⟨Value.vStr "with-arg", none⟩)
        "m" none).2
      = ActionResult.success (Value.vStr "no-arg") ∧
    ActionResult.success (Value.vStr "with-arg") ≠
      ActionResult.success (Value.vStr "no-arg") :=
  ⟨rfl, rfl, by decide⟩

/-- C8 (amended): for every method name, transform (or none) and initial
state — i.e. whenever no payload is involved — an action-creator from the
isolated factory behaves identically to one from the process-wide default
path with the same facade installed: same sequence of state-record
operations, same final state, and the same Async Action Result. -/
theorem factory_refines_default_path (g : DefaultManager) (f : Facade)
    (apiMethod : String) (t : Option Transform) (s0 : BaseApiState) :
    runAction (setDefaultApiService g f)
        (createApiAction apiMethod
          (match t with
           | some tr => TransformOrPayload.tf tr
           | none => TransformOrPayload.undef) none) s0 =
      (applyOps s0 (createApiActionFactory f apiMethod t).1,
       Except.ok (createApiActionFactory f apiMethod t).2) := by
  cases t <;> rfl

/-! ## Theorems about the base64 endpoint -/

/-- C6 counterexample: the request body `{text: ""}` carries a string, yet
the endpoint responds `400` with no `base64` field, because the handler's
guard `!text || typeof text !== 'string'` rejects the falsy empty string. -/
theorem base64EncodeHandler_empty_string_cex :
    (Value.vStr "").typeof = "string" ∧
    (base64EncodeHandler ⟨Value.vStr ""⟩).statusCode = 400 ∧
    (base64EncodeHandler ⟨Value.vStr ""⟩).base64 = none ∧
    (400 : Nat) ≠ 200 :=
  ⟨rfl, rfl, rfl, by decide⟩

/-- C6 (amended): `POST /api/base64/encode` responds `400` with a JSON
error body and no `base64` field whenever `text` is missing, not a string,
or the empty string; for every non-empty string `text` it responds `200`
with `base64` equal to the RFC 4648 base64 encoding of the UTF-8 bytes of
`text`. -/
theorem base64EncodeHandler_contract (t : Value) :
    ((t.truthy = false ∨ t.typeof ≠ "string") →
      (base64EncodeHandler ⟨t⟩).statusCode = 400 ∧
      (base64EncodeHandler ⟨t⟩).base64 = none ∧
      (base64EncodeHandler ⟨t⟩).error.isSome = true) ∧
    (∀ s, t = Value.vStr s → s ≠ "" →
      base64EncodeHandler ⟨t⟩ =
        ⟨200, some (base64Encode (utf8Bytes s)), none⟩) := by
  constructor
  · intro h
    cases t <;>
      simp_all [base64EncodeHandler, Value.truthy, Value.typeof, bne_iff_ne]
  · intro s hs hne
    subst hs
    simp [base64EncodeHandler, Value.truthy, Value.typeof, bne_iff_ne, hne]

/-- Witness for C6 (amended): `{text: "Hello World"}` yields `200` with
`base64 = "SGVsbG8gV29ybGQ="`, the concrete encoding named by the spec. -/
theorem base64EncodeHandler_contract_witness :
    base64EncodeHandler ⟨Value.vStr "Hello World"⟩ =
      ⟨200, some "SGVsbG8gV29ybGQ=", none⟩ := by
  have h := (base64EncodeHandler_contract (Value.vStr "Hello World")).2
    "Hello World" rfl (by decide)
  exact h.trans (by decide)

end PreactAppRender
